import Mathlib

/-!
Verification of the CrewAI career-dashboard backend.

This file shallowly embeds the parts of the repository that the claims are
about: the in-memory record store (`MemStorage` in the storage module), the
JS `||` coercions its create operations perform, and the Express route
handlers in `server/routes.ts` for dashboard stats, jobs listing, resume
upload and activity creation.

Modelling conventions:
- JS `Map<string, X>` becomes an insertion-ordered association list
  `List (Nat × X)`; `randomUUID()` id generation becomes a fresh-counter
  (`nextId`), which preserves exactly what the code relies on: freshness.
- `new Date()` becomes a `clock : Nat` field in the store state that every
  create operation reads and then advances, so successive creates carry
  strictly increasing timestamps (distinct wall-clock instants).
- JS `x || y` on nullable numbers / booleans / strings becomes an explicit
  falsy-coercion function (`0`, `false`, `""`, `null`, `undefined` are falsy).
- `Array.prototype.sort` (stable in JS) becomes a stable insertion sort on
  lists, inserting strictly before the first element with smaller key.
- Collaborator (Python service) responses are opaque inputs to the handlers;
  `callPythonService` never throws (it catches and returns a failure payload),
  so a handler sees either a failure payload or the success payload fields.
-/

namespace CrewAI

/-- JS `x || null` on a nullable integer: `undefined`, `null` and `0` are
falsy and give `null`; any other integer is kept. -/
def orNullInt (x : Option Int) : Option Int :=
  match x with
  | none => none
  | some v => if v = 0 then none else some v

/-- JS `x || null` on a nullable boolean: `undefined`, `null` and `false`
are falsy and give `null`; `true` is kept. -/
def orNullBool (x : Option Bool) : Option Bool :=
  match x with
  | none => none
  | some b => if b then some true else none

/-- JS `x || null` on a nullable string: `undefined`, `null` and `""` are
falsy and give `null`; any other string is kept. -/
def orNullStr (x : Option String) : Option String :=
  match x with
  | none => none
  | some v => if v = "" then none else some v

/-- JS `x || 0` on a nullable integer (used for `resume?.score || 0` and
`(job.matchScore || 0)`). -/
def orZeroInt (x : Option Int) : Int :=
  match x with
  | none => 0
  | some v => v

/-- JS `String.prototype.includes`: substring containment test, used by the
location filter in `getJobs`. -/
def strIncludes (hay sub : String) : Bool :=
  sub.isEmpty || (hay.splitOn sub).length != 1

/-! ## Entity records (shared schema)

Fields follow `shared/schema.ts`: nullable columns are `Option`s, `timestamp`
columns are clock readings, generated ids are the store's fresh counters. -/

/-- A stored skill row (`skills` table). -/
structure Skill where
  id : Nat
  userId : String
  name : String
  level : String
  category : String
  isInDemand : Option Bool
  addedAt : Nat
  deriving Repr, DecidableEq

/-- Insert shape for a skill (`insertSkillSchema`: all columns minus
`id`/`addedAt`; `isInDemand` optional). -/
structure InsertSkill where
  userId : String
  name : String
  level : String
  category : String
  isInDemand : Option Bool
  deriving Repr, DecidableEq

/-- Parsed resume data as produced by the collaborator or by the fallback
branch of the upload handler (the fields of the handler's `fallbackData`
object). -/
structure ParsedData where
  name : String
  email : String
  mobileNumber : String
  skills : List String
  education : List String
  experience : List String
  totalExperience : Int
  deriving Repr, DecidableEq

/-- A stored resume row (`resumes` table). -/
structure Resume where
  id : Nat
  userId : String
  fileName : String
  content : String
  parsedData : Option ParsedData
  score : Option Int
  uploadedAt : Nat
  deriving Repr, DecidableEq

/-- Insert shape for a resume (`insertResumeSchema`: all columns minus
`id`/`uploadedAt`; `parsedData` and `score` optional). -/
structure InsertResume where
  userId : String
  fileName : String
  content : String
  parsedData : Option ParsedData
  score : Option Int
  deriving Repr, DecidableEq

/-- A stored job row (`jobs` table). -/
structure Job where
  id : Nat
  title : String
  company : String
  location : String
  salary : Option String
  description : String
  requirements : Option (List String)
  matchScore : Option Int
  postedAt : Option String
  applyUrl : Option String
  fetchedAt : Nat
  deriving Repr, DecidableEq

/-- Insert shape for a job (`insertJobSchema`: all columns minus
`id`/`fetchedAt`). -/
structure InsertJob where
  title : String
  company : String
  location : String
  salary : Option String
  description : String
  requirements : Option (List String)
  matchScore : Option Int
  postedAt : Option String
  applyUrl : Option String
  deriving Repr, DecidableEq

/-- A stored activity row (`activities` table). -/
structure Activity where
  id : Nat
  userId : String
  type : String
  description : String
  status : String
  createdAt : Nat
  deriving Repr, DecidableEq

/-- Insert shape for an activity (`insertActivitySchema`: all columns minus
`id`/`createdAt`). -/
structure InsertActivity where
  userId : String
  type : String
  description : String
  status : String
  deriving Repr, DecidableEq

/-! ## Stable sort by descending integer key

JS `arr.sort((a, b) => key b - key a)` with a stable sort: an element is
inserted strictly before the first element whose key is smaller, so elements
with equal keys keep their relative order. -/

/-- Insert `x` into `l` in front of the first element with strictly smaller
key (stable descending insertion). -/
def insertDescBy (key : α → Int) (x : α) : List α → List α
  | [] => [x]
  | y :: ys => if key y < key x then x :: y :: ys else y :: insertDescBy key x ys

/-- Stable sort by descending `key` (models JS stable `Array.prototype.sort`
with comparator `(a, b) => key b - key a`). -/
def sortDescBy (key : α → Int) : List α → List α
  | [] => []
  | x :: xs => insertDescBy key x (sortDescBy key xs)

/-! ## The in-memory store (`MemStorage`)

Only the entity kinds the claims touch are carried (resumes, skills, jobs,
activities); users, career paths and courses are untouched by the claimed
operations. -/

/-- The `MemStorage` state: one insertion-ordered map per entity kind, plus
the fresh-id counter modelling `randomUUID()` and the clock modelling
`new Date()`. -/
structure MemStorage where
  resumes : List (Nat × Resume)
  skills : List (Nat × Skill)
  jobs : List (Nat × Job)
  activities : List (Nat × Activity)
  nextId : Nat
  clock : Nat
  deriving Repr, DecidableEq

/-- The empty store (no seeded rows). -/
def MemStorage.empty : MemStorage :=
  { resumes := [], skills := [], jobs := [], activities := [], nextId := 0, clock := 0 }

/-- `createResume`: fresh id, `parsedData: insertResume.parsedData || null`,
`score: insertResume.score || null`, `uploadedAt: new Date()`; `map.set`
appends since the id is fresh. -/
def MemStorage.createResume (s : MemStorage) (ins : InsertResume) : Resume × MemStorage :=
  let id := s.nextId
  let resume : Resume :=
    { id
      userId := ins.userId
      fileName := ins.fileName
      content := ins.content
      parsedData := ins.parsedData
      score := orNullInt ins.score
      uploadedAt := s.clock }
  (resume, { s with resumes := s.resumes ++ [(id, resume)], nextId := id + 1, clock := s.clock + 1 })

/-- `getResumeByUserId`: `Array.from(values).find(r => r.userId === userId)`
— the first stored resume of that user, if any. -/
def MemStorage.getResumeByUserId (s : MemStorage) (userId : String) : Option Resume :=
  (s.resumes.map Prod.snd).find? (fun r => r.userId = userId)

/-- A `Partial<Resume>` patch: each field may be present (overriding) or
absent. A present nullable field carries an `Option` value, since JS can
set such a field to `null`/`undefined` explicitly. -/
structure ResumePatch where
  id : Option Nat := none
  userId : Option String := none
  fileName : Option String := none
  content : Option String := none
  parsedData : Option (Option ParsedData) := none
  score : Option (Option Int) := none
  uploadedAt : Option Nat := none
  deriving Repr, DecidableEq

/-- JS object spread `{...resume, ...data}`: fields present in the patch
override, the rest keep the base record's values. -/
def applyResumePatch (r : Resume) (p : ResumePatch) : Resume :=
  { id := p.id.getD r.id
    userId := p.userId.getD r.userId
    fileName := p.fileName.getD r.fileName
    content := p.content.getD r.content
    parsedData := p.parsedData.getD r.parsedData
    score := p.score.getD r.score
    uploadedAt := p.uploadedAt.getD r.uploadedAt }

/-- `updateResume(id, data)`: `undefined` when the id is unknown (store left
untouched), otherwise stores and returns `{...resume, ...data}` under the
same map key. -/
def MemStorage.updateResume (s : MemStorage) (id : Nat) (p : ResumePatch) :
    Option Resume × MemStorage :=
  match s.resumes.find? (fun kv => kv.1 = id) with
  | none => (none, s)
  | some kv =>
    let updated := applyResumePatch kv.2 p
    (some updated,
      { s with resumes := s.resumes.map (fun kv' => if kv'.1 = id then (id, updated) else kv') })

/-- `getSkillsByUserId`: filter by `userId`, insertion order. -/
def MemStorage.getSkillsByUserId (s : MemStorage) (userId : String) : List Skill :=
  (s.skills.map Prod.snd).filter (fun sk => sk.userId = userId)

/-- `createSkill`: fresh id, `isInDemand: insertSkill.isInDemand || null`,
`addedAt: new Date()`. -/
def MemStorage.createSkill (s : MemStorage) (ins : InsertSkill) : Skill × MemStorage :=
  let id := s.nextId
  let skill : Skill :=
    { id
      userId := ins.userId
      name := ins.name
      level := ins.level
      category := ins.category
      isInDemand := orNullBool ins.isInDemand
      addedAt := s.clock }
  (skill, { s with skills := s.skills ++ [(id, skill)], nextId := id + 1, clock := s.clock + 1 })

/-- Sort key used for jobs: `job.matchScore || 0`. -/
def jobKey (j : Job) : Int := orZeroInt j.matchScore

/-- `getJobs(filters?)`: optional location-substring filter (skipped when the
filter string is falsy or `"All Locations"`), then stable sort by
`(b.matchScore || 0) - (a.matchScore || 0)` (descending). The `experience`
filter is accepted but never applied in the source, so it is not modelled. -/
def MemStorage.getJobs (s : MemStorage) (locFilter : Option String) : List Job :=
  let jobs := s.jobs.map Prod.snd
  let jobs :=
    match locFilter with
    | none => jobs
    | some loc =>
      if loc ≠ "" ∧ loc ≠ "All Locations" then
        jobs.filter (fun j => strIncludes j.location loc)
      else jobs
  sortDescBy jobKey jobs

/-- `createJob`: fresh id, `|| null` coercions on all optional columns,
`fetchedAt: new Date()`. -/
def MemStorage.createJob (s : MemStorage) (ins : InsertJob) : Job × MemStorage :=
  let id := s.nextId
  let job : Job :=
    { id
      title := ins.title
      company := ins.company
      location := ins.location
      salary := orNullStr ins.salary
      description := ins.description
      requirements := ins.requirements
      matchScore := orNullInt ins.matchScore
      postedAt := orNullStr ins.postedAt
      applyUrl := orNullStr ins.applyUrl
      fetchedAt := s.clock }
  (job, { s with jobs := s.jobs ++ [(id, job)], nextId := id + 1, clock := s.clock + 1 })

/-- `getJobsByMatchScore(minScore)`: filter `(job.matchScore || 0) >= minScore`,
then the same descending stable sort as `getJobs`. -/
def MemStorage.getJobsByMatchScore (s : MemStorage) (minScore : Int) : List Job :=
  sortDescBy jobKey ((s.jobs.map Prod.snd).filter (fun j => minScore ≤ jobKey j))

/-- Sort key used for activities: `new Date(createdAt).getTime()`. -/
def activityKey (a : Activity) : Int := (a.createdAt : Int)

/-- `getActivitiesByUserId`: filter by `userId`, stable sort by `createdAt`
descending. -/
def MemStorage.getActivitiesByUserId (s : MemStorage) (userId : String) : List Activity :=
  sortDescBy activityKey
    ((s.activities.map Prod.snd).filter (fun a => a.userId = userId))

/-- `createActivity`: fresh id, `createdAt: new Date()`. -/
def MemStorage.createActivity (s : MemStorage) (ins : InsertActivity) : Activity × MemStorage :=
  let id := s.nextId
  let activity : Activity :=
    { id
      userId := ins.userId
      type := ins.type
      description := ins.description
      status := ins.status
      createdAt := s.clock }
  (activity, { s with activities := s.activities ++ [(id, activity)], nextId := id + 1, clock := s.clock + 1 })

/-! ## Route handlers (`server/routes.ts`)

Every endpoint operates on the hard-coded default user. Collaborator
(Python service) responses are inputs: `callPythonService` catches every
transport error and returns `{success: false, ...}`, so a handler receives
either a failure payload or whatever success payload the collaborator sent. -/

/-- The hard-coded single-tenant user id in `registerRoutes`. -/
def defaultUserId : String := "default-user"

/-- Response body of `GET /api/dashboard/stats`. -/
structure DashboardStats where
  resumeScore : Int
  skillMatches : Nat
  jobRecommendations : Nat
  deriving Repr, DecidableEq

/-- The `GET /api/dashboard/stats` handler: `resume?.score || 0`,
`skills.length`, `jobs.length || 3`. -/
def dashboardStatsHandler (s : MemStorage) : DashboardStats :=
  let resume := s.getResumeByUserId defaultUserId
  let skills := s.getSkillsByUserId defaultUserId
  let jobs := s.getJobs none
  { resumeScore := orZeroInt (resume.bind Resume.score)
    skillMatches := skills.length
    jobRecommendations := if jobs.length = 0 then 3 else jobs.length }

/-- A job object as it crosses the HTTP boundary: either an element of the
collaborator's `jobs` array (fields read by the store loop) or one of the
static `fallbackJobs`. -/
structure ApiJob where
  id : Option String
  title : String
  company : String
  location : String
  description : String
  requirements : Option (List String)
  salary : Option String
  applyUrl : Option String
  postedAt : Option String
  matchScore : Option Int
  deriving Repr, DecidableEq

/-- The static `fallbackJobs` array in `server/routes.ts`. -/
def fallbackJobs : List ApiJob :=
  [ { id := some "job-1"
      title := "Full Stack Developer"
      company := "TechCorp"
      location := "Remote"
      description := "Looking for a full stack developer with React, Node.js, and Python experience."
      requirements := some ["React", "Node.js", "Python", "SQL", "Git"]
      salary := some "$80,000 - $120,000"
      applyUrl := some "https://example.com/apply"
      postedAt := some "2025-01-20"
      matchScore := some 85 },
    { id := some "job-2"
      title := "Frontend Developer"
      company := "WebStudio"
      location := "Remote"
      description := "Frontend developer needed for modern React applications with TypeScript."
      requirements := some ["React", "TypeScript", "HTML", "CSS", "JavaScript"]
      salary := some "$70,000 - $100,000"
      applyUrl := some "https://example.com/apply2"
      postedAt := some "2025-01-19"
      matchScore := some 78 },
    { id := some "job-3"
      title := "Python Developer"
      company := "DataTech"
      location := "Remote"
      description := "Python developer for data processing and web applications."
      requirements := some ["Python", "Django", "PostgreSQL", "Docker"]
      salary := some "$75,000 - $110,000"
      applyUrl := some "https://example.com/apply3"
      postedAt := some "2025-01-18"
      matchScore := some 72 } ]

/-- Collaborator payload for `GET /jobs?skills=...` as the handler reads it.
`jobs := none` models a payload with `success: true` but no `jobs` array, on
which `pythonResponse.jobs.slice(0, 10)` throws and control reaches the
handler's catch block. -/
structure PyJobsResponse where
  success : Bool
  jobs : Option (List ApiJob)
  source : String
  message : String
  deriving Repr, DecidableEq

/-- Response of `GET /api/jobs` (the handler always answers via `res.json`,
i.e. HTTP 200, on every branch including its catch block). -/
structure JobsApiResponse where
  status : Nat
  success : Bool
  jobs : List ApiJob
  source : String
  message : String
  deriving Repr, DecidableEq

/-- The best-effort store loop of the jobs handler: `createJob` for each of
the first 10 collaborator jobs (per-job failures swallowed; `createJob`
itself is total). -/
def storeCollabJobs (s : MemStorage) (js : List ApiJob) : MemStorage :=
  (js.take 10).foldl
    (fun st j =>
      (st.createJob
        { title := j.title
          company := j.company
          location := j.location
          salary := j.salary
          description := j.description
          requirements := j.requirements
          matchScore := j.matchScore
          postedAt := j.postedAt
          applyUrl := j.applyUrl }).2) s

/-- The `GET /api/jobs` handler. On collaborator success it stores up to 10
returned jobs and echoes the collaborator's `jobs`/`source`/`message`; on a
failure payload it serves the static fallback; if the success payload lacks
a `jobs` array the `slice` call throws (before any job is stored) and the
catch block serves the same static fallback. -/
def apiJobsHandler (s : MemStorage) (py : PyJobsResponse) : JobsApiResponse × MemStorage :=
  if py.success then
    match py.jobs with
    | some js =>
      ({ status := 200
         success := true
         jobs := js
         source := py.source
         message := py.message }, storeCollabJobs s js)
    | none =>
      ({ status := 200
         success := true
         jobs := fallbackJobs
         source := "fallback_data"
         message := "Error occurred - Using fallback data" }, s)
  else
    ({ status := 200
       success := true
       jobs := fallbackJobs
       source := "fallback_data"
       message := "Using fallback data - External job API unavailable" }, s)

/-- The uploaded file as multer hands it to the upload handler, together
with the bytes the fallback branch would read back from disk. -/
structure UploadedFile where
  path : String
  originalname : String
  content : String
  deriving Repr, DecidableEq

/-- Collaborator payload for `POST /parse-resume` as the upload handler
reads it. -/
structure PyParseResponse where
  success : Bool
  content : String
  parsedData : Option ParsedData
  score : Option Int
  message : String
  deriving Repr, DecidableEq

/-- The `fallbackData` object built in the upload handler's fallback branch. -/
def uploadFallbackData : ParsedData :=
  { name := "User"
    email := ""
    mobileNumber := ""
    skills := ["JavaScript", "HTML", "CSS"]
    education := []
    experience := []
    totalExperience := 0 }

/-- Observable outcome of one `POST /api/resume/upload` request.
`tempFileDeleted` records whether `fs.unlinkSync(req.file.path)` ran. -/
structure UploadResult where
  status : Nat
  resume : Option Resume
  message : Option String
  extractedSkills : Option Nat
  error : Option String
  tempFileDeleted : Bool
  deriving Repr, DecidableEq

/-- The skill store loop of the upload handler's success branch:
`createSkill` per extracted skill name, failures swallowed. -/
def storeExtractedSkills (s : MemStorage) (names : List String) : MemStorage :=
  names.foldl
    (fun st n =>
      (st.createSkill
        { name := n
          userId := defaultUserId
          level := "intermediate"
          category := "technical"
          isInDemand := some true }).2) s

/-- The `POST /api/resume/upload` handler. Inputs: the multer file (absent
gives the 400 branch), the collaborator's parse payload, and `readErr`: when
`some m`, the fallback branch's `fs.promises.readFile` rejects with an error
whose `message` is `m`, so control jumps to the catch block — before the
`fs.unlinkSync` cleanup line, which sits at the end of the `try` block, is
reached. -/
def uploadResumeHandler (s : MemStorage) (file : Option UploadedFile)
    (py : PyParseResponse) (readErr : Option String) : UploadResult × MemStorage :=
  match file with
  | none =>
    ({ status := 400, resume := none, message := none, extractedSkills := none
       error := some "No file uploaded", tempFileDeleted := false }, s)
  | some f =>
    if py.success then
      let (resume, s1) := s.createResume
        { content := py.content
          userId := defaultUserId
          fileName := f.originalname
          parsedData := py.parsedData
          score := py.score }
      let extracted := (py.parsedData.map ParsedData.skills).getD []
      let s2 := storeExtractedSkills s1 extracted
      let (_, s3) := s2.createActivity
        { type := "resume_upload"
          description := "Uploaded and analyzed resume: " ++ f.originalname
          userId := defaultUserId
          status := "completed" }
      ({ status := 200, resume := some resume, message := some py.message
         extractedSkills := some extracted.length, error := none
         tempFileDeleted := true }, s3)
    else
      match readErr with
      | some m =>
        ({ status := 500, resume := none, message := none, extractedSkills := none
           error := some (if m = "" then "Failed to process resume" else m)
           tempFileDeleted := false }, s)
      | none =>
        let (resume, s1) := s.createResume
          { content := f.content
            userId := defaultUserId
            fileName := f.originalname
            parsedData := some uploadFallbackData
            score := some 65 }
        let (_, s2) := s1.createActivity
          { type := "resume_upload"
            description := "Uploaded and analyzed resume: " ++ f.originalname
            userId := defaultUserId
            status := "completed" }
        ({ status := 200, resume := some resume
           message := some "Resume uploaded (basic parsing - Python service unavailable)"
           extractedSkills := some uploadFallbackData.skills.length, error := none
           tempFileDeleted := true }, s2)

/-- Raw JSON body of `POST /api/activities` as far as `insertActivitySchema`
inspects it: each required column either present (with a string value) or
missing. -/
structure RawActivityBody where
  userId : Option String
  type : Option String
  description : Option String
  status : Option String
  deriving Repr, DecidableEq

/-- `insertActivitySchema.safeParse`: succeeds exactly when every required
column (`userId`, `type`, `description`, `status`) is present. -/
def parseInsertActivity (b : RawActivityBody) : Option InsertActivity :=
  match b.userId, b.type, b.description, b.status with
  | some u, some t, some d, some st =>
    some { userId := u, type := t, description := d, status := st }
  | _, _, _, _ => none

/-- The `POST /api/activities` handler: 400 on validation failure, otherwise
`createActivity({...validation.data, userId: defaultUserId})` — the body's
`userId` is overridden by the hard-coded default. -/
def postActivityHandler (s : MemStorage) (b : RawActivityBody) :
    (Nat × Option Activity) × MemStorage :=
  match parseInsertActivity b with
  | none => ((400, none), s)
  | some data =>
    let (activity, s') := s.createActivity { data with userId := defaultUserId }
    ((200, some activity), s')

/-- Models `this.resumes.get(id)`: the value stored under a resume map key. -/
def MemStorage.getResumeById (s : MemStorage) (id : Nat) : Option Resume :=
  (s.resumes.find? (fun kv => kv.1 = id)).map Prod.snd

/-! ## Concrete sample inputs used by witnesses and counterexamples -/

/-- A sample multer upload. -/
def sampleFile : UploadedFile :=
  { path := "uploads/abc123", originalname := "resume.txt", content := "resume text" }

/-- The payload `callPythonService` returns when the collaborator call
errors out or times out. -/
def pyParseFailure : PyParseResponse :=
  { success := false, content := "", parsedData := none, score := none
    message := "connect ECONNREFUSED 127.0.0.1:8000" }

/-- A successful collaborator parse whose reported score is `0`. -/
def pyScoreZero : PyParseResponse :=
  { success := true, content := "resume text", score := some 0, message := "parsed"
    parsedData := some
      { name := "A", email := "", mobileNumber := "", skills := ["Python", "SQL"]
        education := [], experience := [], totalExperience := 1 } }

/-- A successful collaborator parse with score `88` and two skills. -/
def pySuccess88 : PyParseResponse :=
  { success := true, content := "resume text", score := some 88, message := "parsed"
    parsedData := some
      { name := "A", email := "", mobileNumber := "", skills := ["Python", "SQL"]
        education := [], experience := [], totalExperience := 1 } }

/-- A successful collaborator jobs payload whose `jobs` array is empty. -/
def pyJobsEmptySuccess : PyJobsResponse :=
  { success := true, jobs := some [], source := "remotive_api", message := "Found 0 jobs" }

/-- The payload `callPythonService` returns when the jobs call fails. -/
def pyJobsFailure : PyJobsResponse :=
  { success := false, jobs := none, source := "", message := "timeout of 30000ms exceeded" }

/-- A sample job insert with a match score. -/
def sampleInsertJob : InsertJob :=
  { title := "Full Stack Developer", company := "TechCorp", location := "Remote"
    salary := some "$80,000 - $120,000"
    description := "Looking for a full stack developer."
    requirements := some ["React", "Node.js"], matchScore := some 85
    postedAt := some "2025-01-20", applyUrl := some "https://example.com/apply" }

/-- A store holding one existing activity, satisfying the clock invariant. -/
def activityStoreSample : MemStorage :=
  { resumes := [], skills := [], jobs := []
    activities := [(0,
      { id := 0, userId := "default-user", type := "course_started"
        description := "Started a course", status := "new", createdAt := 0 })]
    nextId := 1, clock := 1 }

/-- A sample activity insert for the default user. -/
def activityInsertSample : InsertActivity :=
  { userId := "default-user", type := "resume_upload"
    description := "Uploaded and analyzed resume: resume.txt", status := "completed" }

/-- A sample stored resume record. -/
def resumeRecordSample : Resume :=
  { id := 0, userId := "default-user", fileName := "resume.txt", content := "resume text"
    parsedData := none, score := some 50, uploadedAt := 0 }

/-- A store holding one resume under map key `0`. -/
def resumeStoreSample : MemStorage :=
  { resumes := [(0, resumeRecordSample)], skills := [], jobs := [], activities := []
    nextId := 1, clock := 1 }

/-- A patch touching only the score field. -/
def scorePatchSample : ResumePatch := { score := some (some 80) }

/-- A resume insert carrying score `0`. -/
def resumeInsertZero : InsertResume :=
  { userId := "default-user", fileName := "r.txt", content := "c"
    parsedData := none, score := some 0 }

/-- A resume insert carrying score `50`. -/
def resumeInsertFifty : InsertResume :=
  { userId := "default-user", fileName := "r.txt", content := "c"
    parsedData := none, score := some 50 }

/-- A job insert carrying match score `0`. -/
def jobInsertZero : InsertJob := { sampleInsertJob with matchScore := some 0 }

/-- A skill insert carrying `isInDemand := false`. -/
def skillInsertFalse : InsertSkill :=
  { userId := "default-user", name := "HTML", level := "beginner"
    category := "technical", isInDemand := some false }

/-- A `POST /api/activities` body that tries to impersonate another user. -/
def attackerBody : RawActivityBody :=
  { userId := some "attacker", type := some "hack"
    description := some "spoofed entry", status := some "new" }

/-- The activity the handler actually creates from `attackerBody` on the
empty store. -/
def attackerBodyResult : Activity :=
  { id := 0, userId := "default-user", type := "hack"
    description := "spoofed entry", status := "new", createdAt := 0 }

/-! ## Lemmas about the stable descending sort -/

theorem insertDescBy_perm (key : α → Int) (x : α) (l : List α) :
    (insertDescBy key x l).Perm (x :: l) := by
  induction l with
  | nil => simp [insertDescBy]
  | cons y ys ih =>
    by_cases h : key y < key x
    · simp [insertDescBy, h]
    · simp only [insertDescBy, if_neg h]
      exact (ih.cons y).trans (List.Perm.swap x y ys)

theorem sortDescBy_perm (key : α → Int) (l : List α) :
    (sortDescBy key l).Perm l := by
  induction l with
  | nil => simp [sortDescBy]
  | cons x xs ih =>
    exact (insertDescBy_perm key x (sortDescBy key xs)).trans (ih.cons x)

theorem insertDescBy_pairwise (key : α → Int) (x : α) (l : List α)
    (h : l.Pairwise (fun a b => key b ≤ key a)) :
    (insertDescBy key x l).Pairwise (fun a b => key b ≤ key a) := by
  induction l with
  | nil => simp [insertDescBy]
  | cons y ys ih =>
    rcases List.pairwise_cons.mp h with ⟨hy, hys⟩
    by_cases hlt : key y < key x
    · simp only [insertDescBy, if_pos hlt]
      refine List.pairwise_cons.mpr ⟨?_, h⟩
      intro z hz
      rcases List.mem_cons.mp hz with rfl | hz'
      · exact le_of_lt hlt
      · exact le_trans (hy z hz') (le_of_lt hlt)
    · simp only [insertDescBy, if_neg hlt]
      refine List.pairwise_cons.mpr ⟨?_, ih hys⟩
      intro z hz
      rcases List.mem_cons.mp ((insertDescBy_perm key x ys).mem_iff.mp hz) with rfl | hz'
      · exact not_lt.mp hlt
      · exact hy z hz'

theorem sortDescBy_pairwise (key : α → Int) (l : List α) :
    (sortDescBy key l).Pairwise (fun a b => key b ≤ key a) := by
  induction l with
  | nil => simp [sortDescBy]
  | cons x xs ih => exact insertDescBy_pairwise key x _ ih

/-- In a list sorted by descending key, an element whose key strictly
dominates every other element's key sits at the head. -/
theorem head?_eq_of_sorted_strict_max (key : α → Int) (m : List α)
    (hp : m.Pairwise (fun a b => key b ≤ key a)) (x : α) (hx : x ∈ m)
    (hmax : ∀ y ∈ m, y = x ∨ key y < key x) : m.head? = some x := by
  cases m with
  | nil => cases hx
  | cons h t =>
    rcases List.pairwise_cons.mp hp with ⟨hh, _⟩
    rcases List.mem_cons.mp hx with rfl | hxt
    · rfl
    · rcases hmax h (List.mem_cons_self h t) with rfl | hlt
      · rfl
      · exact absurd (hh x hxt) (not_le.mpr hlt)

/-! ## Claim theorems -/

/-- C6: for every store state, location filter and `minScore`, both `getJobs`
and `getJobsByMatchScore` return lists sorted by `matchScore` descending with
an absent `matchScore` treated as `0` (the key `jobKey`), and
`getJobsByMatchScore` returns exactly (a permutation of) the stored jobs whose
`matchScore || 0` is at least `minScore`. -/
theorem C6_jobs_sorted_and_filtered (s : MemStorage) (minScore : Int) (flt : Option String) :
    (s.getJobs flt).Pairwise (fun a b => jobKey b ≤ jobKey a) ∧
    (s.getJobsByMatchScore minScore).Pairwise (fun a b => jobKey b ≤ jobKey a) ∧
    (s.getJobsByMatchScore minScore).Perm
      ((s.jobs.map Prod.snd).filter (fun j => minScore ≤ jobKey j)) := by
  refine ⟨?_, ?_, ?_⟩
  · exact sortDescBy_pairwise jobKey _
  · exact sortDescBy_pairwise jobKey _
  · exact sortDescBy_perm jobKey _

/-- Invariant of reachable store states: every stored activity was created at
a clock reading strictly before the store's current clock (each create
advances the clock). -/
abbrev ActivitiesWF (s : MemStorage) : Prop :=
  ∀ p ∈ s.activities, p.2.createdAt < s.clock

/-- C7: for every store state and user id, `getActivitiesByUserId` returns
exactly (a permutation of) that user's stored activities, sorted by
`createdAt` descending; and on any state satisfying the reachable-state clock
invariant, creating an activity for that user and re-fetching places the new
activity first. -/
theorem C7_activities_sorted_newest_first (s : MemStorage) (uid : String)
    (ins : InsertActivity) (hu : ins.userId = uid) (hwf : ActivitiesWF s) :
    (s.getActivitiesByUserId uid).Pairwise (fun a b => b.createdAt ≤ a.createdAt) ∧
    (s.getActivitiesByUserId uid).Perm
      ((s.activities.map Prod.snd).filter (fun a => a.userId = uid)) ∧
    ((s.createActivity ins).2.getActivitiesByUserId uid).head? =
      some (s.createActivity ins).1 := by
  refine ⟨?_, ?_, ?_⟩
  · exact (sortDescBy_pairwise activityKey _).imp (fun h => Nat.cast_le.mp h)
  · exact sortDescBy_perm activityKey _
  · set a := (s.createActivity ins).1 with ha
    have hstate : (s.createActivity ins).2.activities = s.activities ++ [(s.nextId, a)] := rfl
    have hAcreated : a.createdAt = s.clock := rfl
    have hAuser : a.userId = uid := hu
    have hL : ((s.createActivity ins).2.activities.map Prod.snd).filter
        (fun x => x.userId = uid) =
        ((s.activities.map Prod.snd).filter (fun x => x.userId = uid)) ++ [a] := by
      rw [hstate]
      simp [List.filter_append, hAuser]
    have hmem : a ∈ ((s.createActivity ins).2.activities.map Prod.snd).filter
        (fun x => x.userId = uid) := by
      rw [hL]; exact List.mem_append_right _ (List.mem_singleton.mpr rfl)
    refine head?_eq_of_sorted_strict_max activityKey _ (sortDescBy_pairwise activityKey _) a
      ((sortDescBy_perm activityKey _).mem_iff.mpr hmem) ?_
    intro y hy
    have hy' := (sortDescBy_perm activityKey _).mem_iff.mp hy
    rw [hL] at hy'
    rcases List.mem_append.mp hy' with hyold | hynew
    · right
      have hyo : y ∈ s.activities.map Prod.snd := List.mem_of_mem_filter hyold
      rcases List.mem_map.mp hyo with ⟨p, hp, rfl⟩
      have := hwf p hp
      simp only [activityKey, hAcreated]
      exact_mod_cast this
    · left
      exact List.mem_singleton.mp hynew

/-- C7 witness: on a store holding one older activity, creating a fresh
activity for the default user and re-fetching returns it first. -/
theorem C7_witness :
    (activityStoreSample.getActivitiesByUserId "default-user").Pairwise
      (fun a b => b.createdAt ≤ a.createdAt) ∧
    (activityStoreSample.getActivitiesByUserId "default-user").Perm
      ((activityStoreSample.activities.map Prod.snd).filter
        (fun a => a.userId = "default-user")) ∧
    ((activityStoreSample.createActivity activityInsertSample).2.getActivitiesByUserId
      "default-user").head? =
      some (activityStoreSample.createActivity activityInsertSample).1 :=
  C7_activities_sorted_newest_first activityStoreSample "default-user" activityInsertSample
    rfl (by decide)

/-- Replacing the entry under key `id` in the map makes a lookup of `id`
return the replacement, provided the key was present. -/
theorem find?_replace_self (l : List (Nat × Resume)) (id : Nat) (u : Resume)
    (h : (l.find? fun kv => kv.1 = id).isSome = true) :
    ((l.map fun kv => if kv.1 = id then (id, u) else kv).find? fun kv => kv.1 = id)
      = some (id, u) := by
  induction l with
  | nil => simp [List.find?] at h
  | cons kv t ih =>
    simp only [List.map_cons]
    by_cases hk : kv.1 = id
    · rw [if_pos hk, List.find?_cons_of_pos _ (by simp)]
    · rw [if_neg hk, List.find?_cons_of_neg _ (by simp [hk])]
      apply ih
      rwa [List.find?_cons_of_neg _ (by simp [hk])] at h

/-- Replacing the entry under key `id` leaves lookups of every other key
unchanged. -/
theorem find?_replace_ne (l : List (Nat × Resume)) (id id' : Nat) (u : Resume)
    (h : id' ≠ id) :
    ((l.map fun kv => if kv.1 = id then (id, u) else kv).find? fun kv => kv.1 = id')
      = l.find? (fun kv => kv.1 = id') := by
  induction l with
  | nil => simp
  | cons kv t ih =>
    simp only [List.map_cons]
    by_cases hk : kv.1 = id
    · rw [if_pos hk,
        List.find?_cons_of_neg _ (by simp; exact fun hc => h hc.symm),
        List.find?_cons_of_neg _ (by simp [hk]; exact fun hc => h hc.symm)]
      exact ih
    · rw [if_neg hk]
      by_cases hk' : kv.1 = id'
      · rw [List.find?_cons_of_pos _ (by simp [hk']),
          List.find?_cons_of_pos _ (by simp [hk'])]
      · rw [List.find?_cons_of_neg _ (by simp [hk']),
          List.find?_cons_of_neg _ (by simp [hk'])]
        exact ih

/-- C8: for every store state, patch and id: an unknown id makes
`updateResume` return `undefined` and leave the store untouched; a known id
makes it return and store the merge of the stored resume with the patch,
where each patched field takes the patch's value and each unpatched field
keeps its previous value, leaving every other map entry and every other
entity kind unchanged. -/
theorem C8_updateResume_merge_frame (s : MemStorage) (id : Nat) (p : ResumePatch) :
    (s.getResumeById id = none → s.updateResume id p = (none, s)) ∧
    (∀ r, s.getResumeById id = some r →
      (s.updateResume id p).1 = some (applyResumePatch r p) ∧
      (s.updateResume id p).2.getResumeById id = some (applyResumePatch r p) ∧
      (∀ id', id' ≠ id →
        (s.updateResume id p).2.getResumeById id' = s.getResumeById id') ∧
      (s.updateResume id p).2.skills = s.skills ∧
      (s.updateResume id p).2.jobs = s.jobs ∧
      (s.updateResume id p).2.activities = s.activities ∧
      (applyResumePatch r p).id = p.id.getD r.id ∧
      (applyResumePatch r p).userId = p.userId.getD r.userId ∧
      (applyResumePatch r p).fileName = p.fileName.getD r.fileName ∧
      (applyResumePatch r p).content = p.content.getD r.content ∧
      (applyResumePatch r p).parsedData = p.parsedData.getD r.parsedData ∧
      (applyResumePatch r p).score = p.score.getD r.score ∧
      (applyResumePatch r p).uploadedAt = p.uploadedAt.getD r.uploadedAt) := by
  rcases hfind : s.resumes.find? (fun kv => kv.1 = id) with _ | kv
  · refine ⟨fun _ => ?_, fun r hr => ?_⟩
    · simp [MemStorage.updateResume, hfind]
    · exact absurd hr (by simp [MemStorage.getResumeById, hfind])
  · have hk : kv.1 = id := by
      have := List.find?_some hfind
      simpa using this
    refine ⟨fun hnone => ?_, fun r hr => ?_⟩
    · exact absurd hnone (by simp [MemStorage.getResumeById, hfind])
    · have hr' : kv.2 = r := by
        have : (some kv).map Prod.snd = some r := by rw [← hfind]; exact hr
        simpa using this
      subst hr'
      have hsome : (s.resumes.find? fun kv => kv.1 = id).isSome = true := by
        rw [hfind]; rfl
      refine ⟨?_, ?_, ?_, ?_, ?_, ?_, rfl, rfl, rfl, rfl, rfl, rfl, rfl⟩
      · simp [MemStorage.updateResume, hfind]
      · simp [MemStorage.updateResume, MemStorage.getResumeById, hfind,
          find?_replace_self _ _ _ hsome]
      · intro id' hne
        simp [MemStorage.updateResume, MemStorage.getResumeById, hfind,
          find?_replace_ne _ _ _ _ hne]
      · simp [MemStorage.updateResume, hfind]
      · simp [MemStorage.updateResume, hfind]
      · simp [MemStorage.updateResume, hfind]

/-- C8 witness: patching the sample store's resume with a score-only patch
returns and stores the merged record. -/
theorem C8_witness :
    (resumeStoreSample.updateResume 0 scorePatchSample).1 =
      some (applyResumePatch resumeRecordSample scorePatchSample) ∧
    (resumeStoreSample.updateResume 0 scorePatchSample).2.getResumeById 0 =
      some (applyResumePatch resumeRecordSample scorePatchSample) :=
  ⟨((C8_updateResume_merge_frame resumeStoreSample 0 scorePatchSample).2
      resumeRecordSample rfl).1,
   ((C8_updateResume_merge_frame resumeStoreSample 0 scorePatchSample).2
      resumeRecordSample rfl).2.1⟩

/-- C2: whenever the collaborator parse call fails (and the fallback file
read completes), the upload handler answers 200 with a resume whose score is
`65` and whose parsed skill set is exactly `["JavaScript", "HTML", "CSS"]`,
reports `extractedSkills = 3`, and the returned record is the one appended
to the store. -/
theorem C2_fallback_resume (s : MemStorage) (f : UploadedFile) (py : PyParseResponse)
    (hfail : py.success = false) :
    (uploadResumeHandler s (some f) py none).1.status = 200 ∧
    ((uploadResumeHandler s (some f) py none).1.resume.map Resume.score) =
      some (some 65) ∧
    (((uploadResumeHandler s (some f) py none).1.resume.bind Resume.parsedData).map
      ParsedData.skills) = some ["JavaScript", "HTML", "CSS"] ∧
    (uploadResumeHandler s (some f) py none).1.extractedSkills = some 3 ∧
    (((uploadResumeHandler s (some f) py none).2.resumes.map Prod.snd).getLast?) =
      (uploadResumeHandler s (some f) py none).1.resume := by
  simp [uploadResumeHandler, hfail, MemStorage.createResume, MemStorage.createActivity,
    orNullInt, uploadFallbackData]

/-- C2 witness: the fallback contract evaluated on the empty store with a
concrete failed collaborator call. -/
theorem C2_witness :
    ((uploadResumeHandler MemStorage.empty (some sampleFile) pyParseFailure none).1.resume.map
      Resume.score) = some (some 65) ∧
    (uploadResumeHandler MemStorage.empty (some sampleFile) pyParseFailure
      none).1.extractedSkills = some 3 :=
  ⟨(C2_fallback_resume MemStorage.empty sampleFile pyParseFailure rfl).2.1,
   (C2_fallback_resume MemStorage.empty sampleFile pyParseFailure rfl).2.2.2.1⟩

/-- C3 counterexample: a successful collaborator parse reporting score `0`
yields a stored/returned resume whose score is `null`, not `0` — the claim's
`s = 0` edge case fails. -/
theorem C3_counterexample :
    ((uploadResumeHandler MemStorage.empty (some sampleFile) pyScoreZero none).1.resume.map
      Resume.score) = some none ∧
    ((uploadResumeHandler MemStorage.empty (some sampleFile) pyScoreZero none).1.resume.map
      Resume.score) ≠ some (some 0) := by
  decide

/-- C3 amended: on a successful collaborator parse, the returned resume's
score equals the collaborator score `s` whenever `s ≠ 0`; when `s = 0` the
stored score is `null` (the `score || null` coercion in `createResume`); and
`extractedSkills` always equals the length of the collaborator's skill
list. -/
theorem C3_success_score_and_skills (s : MemStorage) (f : UploadedFile)
    (py : PyParseResponse) (re : Option String) (hs : py.success = true) :
    (∀ v : Int, py.score = some v → v ≠ 0 →
      ((uploadResumeHandler s (some f) py re).1.resume.map Resume.score) =
        some (some v)) ∧
    (py.score = some 0 →
      ((uploadResumeHandler s (some f) py re).1.resume.map Resume.score) = some none) ∧
    (∀ pd : ParsedData, py.parsedData = some pd →
      (uploadResumeHandler s (some f) py re).1.extractedSkills =
        some pd.skills.length) := by
  refine ⟨?_, ?_, ?_⟩
  · intro v hv hvne
    simp [uploadResumeHandler, hs, MemStorage.createResume, orNullInt, hv, hvne]
  · intro hv
    simp [uploadResumeHandler, hs, MemStorage.createResume, orNullInt, hv]
  · intro pd hpd
    simp [uploadResumeHandler, hs, hpd]

/-- C3 witness: the amended success contract evaluated at a concrete parse
with score 88 and two skills. -/
theorem C3_witness :
    ((uploadResumeHandler MemStorage.empty (some sampleFile) pySuccess88 none).1.resume.map
      Resume.score) = some (some 88) ∧
    (uploadResumeHandler MemStorage.empty (some sampleFile)
      pySuccess88 none).1.extractedSkills = some 2 :=
  ⟨(C3_success_score_and_skills MemStorage.empty sampleFile pySuccess88 none rfl).1
      88 rfl (by decide),
   (C3_success_score_and_skills MemStorage.empty sampleFile pySuccess88 none rfl).2.2
      _ rfl⟩

/-- C1 counterexample: a successful collaborator jobs call whose `jobs`
array is empty is echoed verbatim — the response's `jobs` field is an empty
array, refuting the claim's unconditional non-emptiness. -/
theorem C1_counterexample :
    (apiJobsHandler MemStorage.empty pyJobsEmptySuccess).1.jobs = [] ∧
    (apiJobsHandler MemStorage.empty pyJobsEmptySuccess).1.source ≠ "fallback_data" := by
  refine ⟨rfl, ?_⟩
  decide

/-- C1 amended: `GET /api/jobs` always answers 200 with `success: true`; on
a collaborator failure payload, or when a success payload lacks a `jobs`
array (which throws before any job is stored and lands in the catch block),
the response carries the fixed non-empty `fallbackJobs` with
`source = "fallback_data"`; on a success payload with a `jobs` array the
collaborator's `jobs` and `source` are echoed verbatim. -/
theorem C1_jobs_endpoint_contract (s : MemStorage) (py : PyJobsResponse) :
    (apiJobsHandler s py).1.status = 200 ∧
    (apiJobsHandler s py).1.success = true ∧
    (py.success = false →
      (apiJobsHandler s py).1.jobs = fallbackJobs ∧
      (apiJobsHandler s py).1.source = "fallback_data") ∧
    (py.success = true → py.jobs = none →
      (apiJobsHandler s py).1.jobs = fallbackJobs ∧
      (apiJobsHandler s py).1.source = "fallback_data") ∧
    (∀ js, py.success = true → py.jobs = some js →
      (apiJobsHandler s py).1.jobs = js ∧
      (apiJobsHandler s py).1.source = py.source) ∧
    fallbackJobs ≠ [] := by
  rcases hps : py.success
  · simp [apiJobsHandler, hps, fallbackJobs]
  · rcases hj : py.jobs with _ | js
    · simp [apiJobsHandler, hps, hj, fallbackJobs]
    · simp [apiJobsHandler, hps, hj, fallbackJobs]

/-- C1 witness: the amended contract evaluated at a concrete failed
collaborator call. -/
theorem C1_witness :
    (apiJobsHandler MemStorage.empty pyJobsFailure).1.jobs = fallbackJobs ∧
    (apiJobsHandler MemStorage.empty pyJobsFailure).1.source = "fallback_data" :=
  (C1_jobs_endpoint_contract MemStorage.empty pyJobsFailure).2.2.1 rfl

/-- C4: on a store holding exactly one job, the dashboard handler computes
`jobRecommendations = jobs.length || 3 = 1`, not `max(jobCount, 3) = 3` as
the claim (and the code's own `// Show minimum 3` comment) requires. -/
theorem C4_jobRecommendations_not_floored :
    (MemStorage.empty.createJob sampleInsertJob).2.jobs.length = 1 ∧
    (dashboardStatsHandler
      (MemStorage.empty.createJob sampleInsertJob).2).jobRecommendations = 1 ∧
    (dashboardStatsHandler
      (MemStorage.empty.createJob sampleInsertJob).2).jobRecommendations ≠
      max ((MemStorage.empty.createJob sampleInsertJob).2.jobs.length) 3 := by
  decide

/-- C5 counterexample: when the collaborator call fails and the fallback
branch's file read then throws, the handler lands in its catch block and
answers 500 — without ever reaching the `fs.unlinkSync` line, so the temp
file survives. -/
theorem C5_counterexample :
    (uploadResumeHandler MemStorage.empty (some sampleFile) pyParseFailure
      (some "EACCES: permission denied")).1.tempFileDeleted = false ∧
    (uploadResumeHandler MemStorage.empty (some sampleFile) pyParseFailure
      (some "EACCES: permission denied")).1.status = 500 :=
  ⟨rfl, rfl⟩

/-- C5 amended: the temp file is deleted on the collaborator-success path
and on the fallback path when the fallback file read completes; when the
fallback file read throws, the handler answers 500 from the catch block and
the temp file is not deleted (the unlink sits at the end of the `try` block,
not in a `finally`). -/
theorem C5_cleanup_contract (s : MemStorage) (f : UploadedFile)
    (py : PyParseResponse) (re : Option String) :
    (py.success = true →
      (uploadResumeHandler s (some f) py re).1.tempFileDeleted = true) ∧
    (py.success = false → re = none →
      (uploadResumeHandler s (some f) py re).1.tempFileDeleted = true) ∧
    (∀ m, py.success = false → re = some m →
      (uploadResumeHandler s (some f) py re).1.tempFileDeleted = false ∧
      (uploadResumeHandler s (some f) py re).1.status = 500) := by
  rcases hps : py.success <;> rcases hre : re <;>
    simp [uploadResumeHandler, hps, hre]

/-- C5 witness: cleanup happens on a concrete fallback run whose file read
succeeds. -/
theorem C5_witness :
    (uploadResumeHandler MemStorage.empty (some sampleFile) pyParseFailure
      none).1.tempFileDeleted = true :=
  (C5_cleanup_contract MemStorage.empty sampleFile pyParseFailure none).2.1 rfl rfl

/-- C9 counterexample: create a resume (score 50), then `updateResume` with
a `score: 0` patch — the merge stores the raw value, so a stored resume does
have score `0`, refuting "no stored resume ever has score 0". -/
theorem C9_counterexample :
    ((((MemStorage.empty.createResume resumeInsertFifty).2.updateResume 0
      { score := some (some 0) }).2.getResumeById 0).bind Resume.score) = some 0 := by
  decide

/-- C9 amended: the create operations do coerce falsy optionals to `null`
(`score: 0` and `matchScore: 0` become `null`, `isInDemand: false` becomes
`null`), so no resume is ever created with score `0` and no job with match
score `0`; the created record is exactly what is appended to the store. (The
unrestricted "no stored resume ever has score 0" fails via `updateResume`.) -/
theorem C9_falsy_coercions (s : MemStorage) (insR : InsertResume) (insJ : InsertJob)
    (insS : InsertSkill) :
    (insR.score = some 0 → (s.createResume insR).1.score = none) ∧
    (s.createResume insR).1.score ≠ some 0 ∧
    (s.createResume insR).2.resumes =
      s.resumes ++ [(s.nextId, (s.createResume insR).1)] ∧
    (insJ.matchScore = some 0 → (s.createJob insJ).1.matchScore = none) ∧
    (s.createJob insJ).1.matchScore ≠ some 0 ∧
    (s.createJob insJ).2.jobs = s.jobs ++ [(s.nextId, (s.createJob insJ).1)] ∧
    (insS.isInDemand = some false → (s.createSkill insS).1.isInDemand = none) := by
  refine ⟨?_, ?_, rfl, ?_, ?_, rfl, ?_⟩
  · intro h
    simp [MemStorage.createResume, orNullInt, h]
  · rcases hx : insR.score with _ | v
    · simp [MemStorage.createResume, orNullInt, hx]
    · by_cases hv : v = 0 <;> simp [MemStorage.createResume, orNullInt, hx, hv]
  · intro h
    simp [MemStorage.createJob, orNullInt, h]
  · rcases hx : insJ.matchScore with _ | v
    · simp [MemStorage.createJob, orNullInt, hx]
    · by_cases hv : v = 0 <;> simp [MemStorage.createJob, orNullInt, hx, hv]
  · intro h
    simp [MemStorage.createSkill, orNullBool, h]

/-- C9 witness: the coercions evaluated at concrete zero/false inserts. -/
theorem C9_witness :
    (MemStorage.empty.createResume resumeInsertZero).1.score = none ∧
    (MemStorage.empty.createJob jobInsertZero).1.matchScore = none ∧
    (MemStorage.empty.createSkill skillInsertFalse).1.isInDemand = none :=
  ⟨(C9_falsy_coercions MemStorage.empty resumeInsertZero jobInsertZero
      skillInsertFalse).1 rfl,
   (C9_falsy_coercions MemStorage.empty resumeInsertZero jobInsertZero
      skillInsertFalse).2.2.2.1 rfl,
   (C9_falsy_coercions MemStorage.empty resumeInsertZero jobInsertZero
      skillInsertFalse).2.2.2.2.2.2 rfl⟩

/-- C10: every activity `POST /api/activities` creates carries the
hard-coded default user id — the accepted body's `userId` is overridden, and
every activity present after the request either pre-existed or belongs to
the default user. -/
theorem C10_activity_user_forced (s : MemStorage) (b : RawActivityBody) :
    (∀ a, (postActivityHandler s b).1.2 = some a → a.userId = defaultUserId) ∧
    (∀ q ∈ (postActivityHandler s b).2.activities,
      q ∈ s.activities ∨ q.2.userId = defaultUserId) := by
  rcases hpb : parseInsertActivity b with _ | data
  · refine ⟨?_, ?_⟩
    · intro a ha
      simp [postActivityHandler, hpb] at ha
    · intro q hq
      simp only [postActivityHandler, hpb] at hq
      exact Or.inl hq
  · refine ⟨?_, ?_⟩
    · intro a ha
      simp only [postActivityHandler, hpb, MemStorage.createActivity,
        Option.some.injEq] at ha
      rw [← ha]
    · intro q hq
      simp only [postActivityHandler, hpb, MemStorage.createActivity] at hq
      rcases List.mem_append.mp hq with hold | hnew
      · exact Or.inl hold
      · right
        rw [List.mem_singleton.mp hnew]

/-- C10 witness: a body claiming `userId: "attacker"` still produces an
activity owned by the default user. -/
theorem C10_witness :
    (postActivityHandler MemStorage.empty attackerBody).1.2 =
      some attackerBodyResult ∧
    attackerBodyResult.userId = defaultUserId :=
  ⟨rfl, (C10_activity_user_forced MemStorage.empty attackerBody).1
    attackerBodyResult rfl⟩

end CrewAI
